import Mathlib

/-!
Shallow embedding of the marketing attribution pipeline of `main.py`:
touchpoint dataset assembly, journey building, IHC attribution, channel
aggregation and final metric derivation.  Timestamps are integers, monetary
and weight values are rationals, and nullable values (pandas NaN) are
`Option ℚ`.  Float division in the final metrics stage is modelled by `Flt`,
which distinguishes finite values from positive or negative infinity and NaN.
-/

namespace AMS

/-- One row of the `session_sources` table. -/
structure SessionRow where
  session_id : Nat
  user_id : Nat
  channel_name : String
  event_time : Int
  event_date : String
  holder_engagement : ℚ
  closer_engagement : ℚ
  impression_interaction : ℚ
deriving DecidableEq

/-- One row of the `session_costs` table; the cost value itself may be null. -/
structure CostRow where
  session_id : Nat
  cost : Option ℚ
deriving DecidableEq

/-- One row of the `conversions` table. -/
structure ConversionRow where
  conv_id : Nat
  user_id : Nat
  conv_time : Int
  revenue : ℚ
deriving DecidableEq

/-- One row of the `IHC_channel_weights.csv` reference table. -/
structure ChannelWeightRow where
  channel : String
  init_weight : ℚ
  holder_weight : ℚ
  closer_weight : ℚ
deriving DecidableEq

/-- A row of `merged_session_sources_costs`: a session joined with its cost. -/
structure SCRow where
  session_id : Nat
  user_id : Nat
  channel_name : String
  event_time : Int
  event_date : String
  holder_engagement : ℚ
  closer_engagement : ℚ
  impression_interaction : ℚ
  cost : Option ℚ
deriving DecidableEq

/-- A row of `merged_df` in `build_customer_journeys`: session, cost and
conversion data joined together. -/
structure JRow where
  session_id : Nat
  user_id : Nat
  channel_name : String
  event_time : Int
  event_date : String
  holder_engagement : ℚ
  closer_engagement : ℚ
  impression_interaction : ℚ
  cost : Option ℚ
  conv_id : Nat
  conv_time : Int
  revenue : ℚ
deriving DecidableEq

/-- `pd.merge(df_session_sources, df_session_costs, on='session_id')`:
pandas `merge` defaults to an inner join, emitting one output row per
matching (session, cost) pair, in left-table order. -/
def mergeSessionsCosts (sessions : List SessionRow) (costs : List CostRow) : List SCRow :=
  sessions.flatMap fun s =>
    (costs.filter fun c => c.session_id == s.session_id).map fun c =>
      { session_id := s.session_id, user_id := s.user_id, channel_name := s.channel_name,
        event_time := s.event_time, event_date := s.event_date,
        holder_engagement := s.holder_engagement, closer_engagement := s.closer_engagement,
        impression_interaction := s.impression_interaction, cost := c.cost }

/-- `pd.merge(merged_session_sources_costs, df_conversions, on='user_id')`:
the second inner join of `build_customer_journeys`. -/
def journeyMerged (df_conversions : List ConversionRow) (df_session_sources : List SessionRow)
    (df_session_costs : List CostRow) : List JRow :=
  (mergeSessionsCosts df_session_sources df_session_costs).flatMap fun sc =>
    (df_conversions.filter fun cv => cv.user_id == sc.user_id).map fun cv =>
      { session_id := sc.session_id, user_id := sc.user_id, channel_name := sc.channel_name,
        event_time := sc.event_time, event_date := sc.event_date,
        holder_engagement := sc.holder_engagement, closer_engagement := sc.closer_engagement,
        impression_interaction := sc.impression_interaction, cost := sc.cost,
        conv_id := cv.conv_id, conv_time := cv.conv_time, revenue := cv.revenue }

/-- Insert an element into a list, before the first entry it is `le`-below. -/
def insertLe {α : Type} (le : α → α → Bool) (x : α) : List α → List α
  | [] => [x]
  | y :: ys => if le x y then x :: y :: ys else y :: insertLe le x ys

/-- Insertion sort by a boolean comparison, modelling the sorted orders
produced by `DataFrame.sort_values` and by `groupby(..., sort=True)`. -/
def sortLe {α : Type} (le : α → α → Bool) : List α → List α
  | [] => []
  | x :: xs => insertLe le x (sortLe le xs)

/-- Lexicographic comparison of `(conv_id, user_id)` group keys, the order in
which pandas `groupby(['conv_id', 'user_id'])` iterates its groups. -/
def keyLe (a b : Nat × Nat) : Bool :=
  decide (a.1 < b.1) || (a.1 == b.1 && decide (a.2 ≤ b.2))

/-- Comparison by `event_time`, as used by `sort_values(by='event_time')`. -/
def timeLe (a b : JRow) : Bool := decide (a.event_time ≤ b.event_time)

/-- The sorted distinct `(conv_id, user_id)` keys of the assembled table:
pandas `groupby` visits groups in ascending key order. -/
def journeyKeys (m : List JRow) : List (Nat × Nat) :=
  sortLe keyLe ((m.map fun r => (r.conv_id, r.user_id)).dedup)

/-- The rows of one `(conv_id, user_id)` group, in original table order. -/
def journeyGroup (m : List JRow) (k : Nat × Nat) : List JRow :=
  m.filter fun r => r.conv_id == k.1 && r.user_id == k.2

/-- One journey touchpoint as written to `ihc_parameter_training_set.csv`. -/
structure TouchpointRow where
  conversion_id : Nat
  session_id : Nat
  timestamp : Int
  channel_label : String
  holder_engagement : ℚ
  closer_engagement : ℚ
  conversion : ℚ
  impression_interaction : ℚ
deriving DecidableEq

/-- Column projection and renaming of `build_customer_journeys`, including
`np.where(cost.isnull(), 0, 1)` for the derived `conversion` flag. -/
def projectRow (r : JRow) : TouchpointRow :=
  { conversion_id := r.conv_id, session_id := r.session_id, timestamp := r.event_time,
    channel_label := r.channel_name, holder_engagement := r.holder_engagement,
    closer_engagement := r.closer_engagement,
    conversion := if r.cost.isNone then 0 else 1,
    impression_interaction := r.impression_interaction }

/-- The loop body of `build_customer_journeys` for one group: sort the group
by `event_time`, read `conv_time` from the first sorted row, keep rows whose
`event_time` is at or after it, project and rename. -/
def journeyEmit (m : List JRow) (k : Nat × Nat) : List TouchpointRow :=
  match sortLe timeLe (journeyGroup m k) with
  | [] => []
  | f :: rest =>
    ((f :: rest).filter fun r => decide (f.conv_time ≤ r.event_time)).map projectRow

/-- `build_customer_journeys`: assemble the denormalized table, then emit the
flattened touchpoint rows group by group. -/
def build_customer_journeys (df_conversions : List ConversionRow)
    (df_session_sources : List SessionRow) (df_session_costs : List CostRow) :
    List TouchpointRow :=
  let m := journeyMerged df_conversions df_session_sources df_session_costs
  (journeyKeys m).flatMap (journeyEmit m)

/-- The persisted CSV artifact: a header line plus data rows. -/
structure CsvArtifact where
  header : List String
  rows : List TouchpointRow
deriving DecidableEq

/-- The full field set of a journey touchpoint record. -/
def journeyFieldList : List String :=
  ["conversion_id", "session_id", "timestamp", "channel_label",
   "holder_engagement", "closer_engagement", "conversion", "impression_interaction"]

/-- `save_customer_journeys_to_csv`: the header is
`customer_journeys[0].keys() if customer_journeys else []`, so an empty
journey list is written with an empty header. -/
def save_customer_journeys_to_csv (customer_journeys : List TouchpointRow) : CsvArtifact :=
  { header := if customer_journeys.isEmpty then [] else journeyFieldList,
    rows := customer_journeys }

/-- `pd.read_csv` on the persisted artifact: a file without any column in its
header raises `EmptyDataError` (modelled as `none`); otherwise the table is
read back. -/
def readCsvArtifact (a : CsvArtifact) : Option CsvArtifact :=
  if a.header.isEmpty then none else some a

/-- One row of the attribution output: `conv_id, session_id, ihc`, where
`ihc` is null for touchpoints whose channel had no weight match. -/
structure AttributionRow where
  conv_id : Nat
  session_id : Nat
  ihc : Option ℚ
deriving DecidableEq

/-- Pandas left join (`how='left'`): every left row is kept, expanded once
per matching right row, or once with a missing right side when no right row
matches. -/
def leftJoin {α β γ : Type} (ls : List α) (rs : List β) (keyEq : α → β → Bool)
    (comb : α → Option β → γ) : List γ :=
  ls.flatMap fun l =>
    match rs.filter (keyEq l) with
    | [] => [comb l none]
    | r :: rest => (r :: rest).map fun x => comb l (some x)

/-- The IHC credit of a touchpoint with a matched weight row:
`I = impression_interaction * init weight`, `H = holder_engagement * holder
weight`, `C = closer_engagement * closer weight`, and `ihc = (I + H + C) / 3`. -/
def ihcOf (t : TouchpointRow) (w : ChannelWeightRow) : ℚ :=
  (t.impression_interaction * w.init_weight + t.holder_engagement * w.holder_weight
    + t.closer_engagement * w.closer_weight) / 3

/-- `create_attribution_customer_journey` on the reloaded touchpoints: left
join against the channel weights on `channel_label = channel`, compute
`I`, `H`, `C` and `ihc = (I + H + C) / 3`; a missing weight row makes every
intermediate and hence `ihc` null (NaN arithmetic). -/
def create_attribution_customer_journey (tps : List TouchpointRow)
    (ws : List ChannelWeightRow) : List AttributionRow :=
  leftJoin tps ws (fun t w => w.channel == t.channel_label) fun t ow =>
    { conv_id := t.conversion_id, session_id := t.session_id,
      ihc := ow.map fun w => ihcOf t w }

/-- Row of `create_channel_reporting`'s merge after joining costs. -/
structure CR1 where
  session_id : Nat
  user_id : Nat
  channel_name : String
  event_date : String
  cost : Option ℚ
deriving DecidableEq

/-- Row after additionally joining the attribution output. -/
structure CR2 where
  session_id : Nat
  user_id : Nat
  channel_name : String
  event_date : String
  cost : Option ℚ
  ihc : Option ℚ
deriving DecidableEq

/-- Row after additionally joining the conversions. -/
structure CR3 where
  session_id : Nat
  user_id : Nat
  channel_name : String
  event_date : String
  cost : Option ℚ
  ihc : Option ℚ
  revenue : Option ℚ
deriving DecidableEq

/-- `df_session_sources.merge(df_session_costs, on='session_id', how='left')`. -/
def crStep1 (sessions : List SessionRow) (costs : List CostRow) : List CR1 :=
  leftJoin sessions costs (fun s c => c.session_id == s.session_id) fun s oc =>
    { session_id := s.session_id, user_id := s.user_id, channel_name := s.channel_name,
      event_date := s.event_date, cost := oc.bind CostRow.cost }

/-- `.merge(df_attribution_customer_journey, on='session_id', how='left')`. -/
def crStep2 (rows : List CR1) (attribution : List AttributionRow) : List CR2 :=
  leftJoin rows attribution (fun r a => a.session_id == r.session_id) fun r oa =>
    { session_id := r.session_id, user_id := r.user_id, channel_name := r.channel_name,
      event_date := r.event_date, cost := r.cost, ihc := oa.bind AttributionRow.ihc }

/-- `.merge(df_conversions, on='user_id', how='left')`. -/
def crStep3 (rows : List CR2) (convs : List ConversionRow) : List CR3 :=
  leftJoin rows convs (fun r cv => cv.user_id == r.user_id) fun r ocv =>
    { session_id := r.session_id, user_id := r.user_id, channel_name := r.channel_name,
      event_date := r.event_date, cost := r.cost, ihc := r.ihc,
      revenue := ocv.map ConversionRow.revenue }

/-- The fully merged table of `create_channel_reporting`. -/
def crMerged (sessions : List SessionRow) (costs : List CostRow)
    (attribution : List AttributionRow) (convs : List ConversionRow) : List CR3 :=
  crStep3 (crStep2 (crStep1 sessions costs) attribution) convs

/-- NaN-propagating product of two nullable values. -/
def omul (a b : Option ℚ) : Option ℚ :=
  match a, b with
  | some x, some y => some (x * y)
  | _, _ => none

/-- Pandas `sum` over a nullable column: null entries are skipped, and an
empty or all-null column sums to zero. -/
def osum : List (Option ℚ) → ℚ
  | [] => 0
  | none :: l => osum l
  | some x :: l => x + osum l

/-- Ascending order on `(channel_name, event_date)` group keys. -/
def strPairLe (a b : String × String) : Bool :=
  decide (a.1 < b.1) || (a.1 == b.1 && (decide (a.2 < b.2) || a.2 == b.2))

/-- Membership of a merged row in a `(channel_name, event_date)` group. -/
def crKeyMatch (k : String × String) (r : CR3) : Bool :=
  r.channel_name == k.1 && r.event_date == k.2

/-- The sorted distinct `(channel_name, event_date)` keys of the merged table. -/
def crKeys (m : List CR3) : List (String × String) :=
  sortLe strPairLe ((m.map fun r => (r.channel_name, r.event_date)).dedup)

/-- One aggregated channel-reporting row. -/
structure ChannelReportingRow where
  channel_name : String
  date : String
  cost : ℚ
  ihc : ℚ
  ihc_revenue : ℚ
deriving DecidableEq

/-- The `'revenue': lambda x: (x * merged_df['ihc']).sum()` aggregation: the
group's revenue series is index-aligned with the whole table's `ihc` column,
so positions inside the group contribute their own `revenue * ihc` while all
other positions contribute a null that the sum skips. -/
def revenueAggAligned (m : List CR3) (k : String × String) : ℚ :=
  osum (m.map fun r => if crKeyMatch k r then omul r.revenue r.ihc else none)

/-- `create_channel_reporting`: three successive left joins, then a groupby
over `(channel_name, event_date)` aggregating summed cost, summed ihc and the
aligned revenue-times-ihc sum. -/
def create_channel_reporting (df_session_sources : List SessionRow)
    (df_session_costs : List CostRow) (df_attribution_customer_journey : List AttributionRow)
    (df_conversions : List ConversionRow) : List ChannelReportingRow :=
  let m := crMerged df_session_sources df_session_costs df_attribution_customer_journey
    df_conversions
  (crKeys m).map fun k =>
    { channel_name := k.1, date := k.2,
      cost := osum ((m.filter (crKeyMatch k)).map CR3.cost),
      ihc := osum ((m.filter (crKeyMatch k)).map CR3.ihc),
      ihc_revenue := revenueAggAligned m k }

/-- An IEEE-style scalar: finite rational, an infinity, or NaN. -/
inductive Flt where
  | fin : ℚ → Flt
  | posInf : Flt
  | negInf : Flt
  | nan : Flt
deriving DecidableEq

/-- Finiteness of a float-like value. -/
def Flt.isFinite : Flt → Bool
  | .fin _ => true
  | _ => false

/-- Float division of finite values, as performed by pandas on numeric
columns: division by zero produces an infinity of the numerator's sign, and
zero over zero produces NaN.  No zero substitution takes place. -/
def fdiv (a b : ℚ) : Flt :=
  if b = 0 then (if a = 0 then Flt.nan else if 0 < a then Flt.posInf else Flt.negInf)
  else Flt.fin (a / b)

/-- A channel-reporting row after the metrics stage added `CPO` and `ROAS`. -/
structure FinalRow where
  channel_name : String
  date : String
  cost : ℚ
  ihc : ℚ
  ihc_revenue : ℚ
  CPO : Flt
  ROAS : Flt
deriving DecidableEq

/-- The per-row effect of `compute_metrics_and_export_csv`: the original
columns are kept and `CPO = cost / ihc`, `ROAS = ihc_revenue / cost` are
appended. -/
def metricRow (r : ChannelReportingRow) : FinalRow :=
  { channel_name := r.channel_name, date := r.date, cost := r.cost, ihc := r.ihc,
    ihc_revenue := r.ihc_revenue, CPO := fdiv r.cost r.ihc,
    ROAS := fdiv r.ihc_revenue r.cost }

/-- `compute_metrics_and_export_csv`: mutates the channel-reporting table by
adding the two metric columns (modelled as the first component, the updated
state of the caller's DataFrame) and falls off the end of the function, so
its Python return value is `None` (the second component). -/
def compute_metrics_and_export_csv (df_channel_reporting : List ChannelReportingRow) :
    List FinalRow × Option Unit :=
  (df_channel_reporting.map metricRow, none)

/-- Forget the metric columns of a final row. -/
def stripMetrics (f : FinalRow) : ChannelReportingRow :=
  { channel_name := f.channel_name, date := f.date, cost := f.cost, ihc := f.ihc,
    ihc_revenue := f.ihc_revenue }

/-- A session with a cost record, taken by user 1 after their conversions. -/
def exSession1 : SessionRow :=
  { session_id := 1, user_id := 1, channel_name := "A", event_time := 1, event_date := "d",
    holder_engagement := 0, closer_engagement := 1, impression_interaction := 0 }

/-- A second session of user 1, before the conversion time. -/
def exSession2 : SessionRow :=
  { session_id := 2, user_id := 1, channel_name := "A", event_time := -5, event_date := "d",
    holder_engagement := 1, closer_engagement := 0, impression_interaction := 0 }

/-- The cost record of session 1. -/
def exCost1 : CostRow := { session_id := 1, cost := some 5 }

/-- The cost record of session 2. -/
def exCost2 : CostRow := { session_id := 2, cost := some 3 }

/-- A conversion of user 1 at time 0. -/
def exConv1 : ConversionRow := { conv_id := 1, user_id := 1, conv_time := 0, revenue := 100 }

/-- A second conversion of user 1, also at time 0. -/
def exConv2 : ConversionRow := { conv_id := 2, user_id := 1, conv_time := 0, revenue := 50 }

/-- A weight row for channel "A". -/
def exWeight : ChannelWeightRow :=
  { channel := "A", init_weight := 1/2, holder_weight := 3/10, closer_weight := 1/5 }

/-- The touchpoint row emitted for session 1 in the single-conversion run. -/
def exTouchpoint : TouchpointRow :=
  { conversion_id := 1, session_id := 1, timestamp := 1, channel_label := "A",
    holder_engagement := 0, closer_engagement := 1, conversion := 1,
    impression_interaction := 0 }

/-- The assembled row for session 1 joined with conversion 1. -/
def exJ1 : JRow :=
  { session_id := 1, user_id := 1, channel_name := "A", event_time := 1, event_date := "d",
    holder_engagement := 0, closer_engagement := 1, impression_interaction := 0,
    cost := some 5, conv_id := 1, conv_time := 0, revenue := 100 }

/-- The assembled row for session 2 joined with conversion 1. -/
def exJ2 : JRow :=
  { session_id := 2, user_id := 1, channel_name := "A", event_time := -5, event_date := "d",
    holder_engagement := 1, closer_engagement := 0, impression_interaction := 0,
    cost := some 3, conv_id := 1, conv_time := 0, revenue := 100 }

/-- The attribution table produced when user 1 has two conversions and the
weight table is empty: the single session appears once per conversion. -/
def exAttr2 : List AttributionRow :=
  create_attribution_customer_journey
    (build_customer_journeys [exConv1, exConv2] [exSession1] [exCost1]) []

/-- The joined session-cost row produced for session 1. -/
def exSC1 : SCRow :=
  { session_id := 1, user_id := 1, channel_name := "A", event_time := 1, event_date := "d",
    holder_engagement := 0, closer_engagement := 1, impression_interaction := 0,
    cost := some 5 }

/-- Every element of `insertLe le x l` is `x` or an element of `l`. -/
theorem mem_insertLe {α : Type} (le : α → α → Bool) (x a : α) (l : List α) :
    a ∈ insertLe le x l ↔ a = x ∨ a ∈ l := by
  induction l with
  | nil => simp [insertLe]
  | cons y ys ih =>
    by_cases h : le x y = true
    · simp [insertLe, h]
    · simp only [insertLe, h, if_false, Bool.false_eq_true, if_neg, List.mem_cons, ih]
      tauto

/-- Inserting into a `le`-pairwise list keeps it pairwise, for a total and
transitive comparison. -/
theorem pairwise_insertLe {α : Type} (le : α → α → Bool)
    (htot : ∀ a b, le a b = true ∨ le b a = true)
    (htrans : ∀ a b c, le a b = true → le b c = true → le a c = true)
    (x : α) (l : List α) (hl : l.Pairwise fun a b => le a b = true) :
    (insertLe le x l).Pairwise fun a b => le a b = true := by
  induction l with
  | nil => simp [insertLe]
  | cons y ys ih =>
    rw [List.pairwise_cons] at hl
    by_cases h : le x y = true
    · simp only [insertLe, h, if_true, if_pos]
      refine List.pairwise_cons.2 ⟨?_, List.pairwise_cons.2 hl⟩
      intro z hz
      rcases List.mem_cons.1 hz with rfl | hz'
      · exact h
      · exact htrans x y z h (hl.1 z hz')
    · simp only [insertLe, h, Bool.false_eq_true, if_neg, if_false]
      refine List.pairwise_cons.2 ⟨?_, ih hl.2⟩
      intro z hz
      rcases (mem_insertLe le x z ys).1 hz with rfl | hz'
      · rcases htot z y with hzy | hyz
        · exact absurd hzy h
        · exact hyz
      · exact hl.1 z hz'

/-- Insertion sort produces a `le`-pairwise list for a total and transitive
comparison. -/
theorem pairwise_sortLe {α : Type} (le : α → α → Bool)
    (htot : ∀ a b, le a b = true ∨ le b a = true)
    (htrans : ∀ a b c, le a b = true → le b c = true → le a c = true)
    (l : List α) : (sortLe le l).Pairwise fun a b => le a b = true := by
  induction l with
  | nil => simp [sortLe]
  | cons x xs ih => exact pairwise_insertLe le htot htrans x _ ih

/-- The group-key comparison is total. -/
theorem keyLe_total : ∀ a b : Nat × Nat, keyLe a b = true ∨ keyLe b a = true := by
  intro a b
  simp only [keyLe, Bool.or_eq_true, Bool.and_eq_true, decide_eq_true_eq, beq_iff_eq]
  omega

/-- The group-key comparison is transitive. -/
theorem keyLe_trans :
    ∀ a b c : Nat × Nat, keyLe a b = true → keyLe b c = true → keyLe a c = true := by
  intro a b c
  simp only [keyLe, Bool.or_eq_true, Bool.and_eq_true, decide_eq_true_eq, beq_iff_eq]
  omega

/-- The `event_time` comparison is total. -/
theorem timeLe_total : ∀ a b : JRow, timeLe a b = true ∨ timeLe b a = true := by
  intro a b
  simp only [timeLe, decide_eq_true_eq]
  omega

/-- The `event_time` comparison is transitive. -/
theorem timeLe_trans :
    ∀ a b c : JRow, timeLe a b = true → timeLe b c = true → timeLe a c = true := by
  intro a b c
  simp only [timeLe, decide_eq_true_eq]
  omega

/-- The index-aligned skip-null sum over a predicate equals the skip-null sum
over the filtered rows. -/
theorem osum_ite_filter {α : Type} (p : α → Bool) (f : α → Option ℚ) (l : List α) :
    osum (l.map fun x => if p x then f x else none) = osum ((l.filter p).map f) := by
  induction l with
  | nil => rfl
  | cons x xs ih =>
    by_cases hx : p x = true
    · cases hfx : f x <;>
        simp [List.filter_cons, hx, osum, ih, hfx]
    · simp [List.filter_cons, hx, osum, ih]

/-- A skip-null sum of an all-null column is zero. -/
theorem osum_all_none (l : List (Option ℚ)) (h : ∀ a ∈ l, a = none) : osum l = 0 := by
  induction l with
  | nil => rfl
  | cons a l ih =>
    have ha := h a (List.mem_cons_self a l)
    subst ha
    exact ih fun b hb => h b (List.mem_cons_of_mem _ hb)

/-- A pandas left join emits, for each left row, one row per right match and
one row when there is no match. -/
theorem leftJoin_length {α β γ : Type} (ls : List α) (rs : List β) (keyEq : α → β → Bool)
    (comb : α → Option β → γ) :
    (leftJoin ls rs keyEq comb).length
      = (ls.map fun l => max (rs.filter (keyEq l)).length 1).sum := by
  induction ls with
  | nil => rfl
  | cons l ls ih =>
    simp only [leftJoin] at ih ⊢
    rw [List.flatMap_cons, List.length_append, ih, List.map_cons, List.sum_cons]
    congr 1
    cases h : rs.filter (keyEq l) with
    | nil => simp [h]
    | cons r rest =>
      simp only [List.length_map, List.length_cons]
      omega

/-- Claim C1, counterexample: the Session-to-Cost join of
`build_customer_journeys` is `pd.merge`'s default inner join, so a session
with no matching cost record does not appear in the joined table at all —
refuting the claim that every Session row is preserved regardless of Cost
presence. -/
theorem c1_counterexample :
    mergeSessionsCosts [exSession1] [] = [] ∧ exSession1 ∈ [exSession1] :=
  ⟨rfl, List.mem_singleton_self _⟩

/-- Claim C1, amended: the Session-to-Cost join emits one row per matching
(session, cost) pair — a session with exactly one matching cost row appears
exactly once and is not duplicated, but a session with no matching cost row
is dropped: no joined row carries its session id. -/
theorem c1_join_drops_costless (sessions : List SessionRow) (costs : List CostRow) :
    (mergeSessionsCosts sessions costs).length
        = (sessions.map fun s =>
            (costs.filter fun c => c.session_id == s.session_id).length).sum
      ∧ ∀ s ∈ sessions, (costs.filter fun c => c.session_id == s.session_id) = [] →
          ∀ r ∈ mergeSessionsCosts sessions costs, r.session_id ≠ s.session_id := by
  constructor
  · induction sessions with
    | nil => rfl
    | cons s ss ih =>
      simp only [mergeSessionsCosts, List.flatMap_cons, List.length_append, List.length_map,
        List.map_cons, List.sum_cons] at ih ⊢
      rw [ih]
  · intro s hs hnil r hr hEq
    simp only [mergeSessionsCosts, List.mem_flatMap, List.mem_map] at hr
    obtain ⟨s', hs', c, hc, rfl⟩ := hr
    have hc' := List.mem_filter.1 hc
    have h1 : c.session_id = s'.session_id := by simpa using hc'.2
    rw [List.filter_eq_nil_iff] at hnil
    exact hnil c hc'.1 (by simp only [beq_iff_eq]; rw [h1]; exact hEq)

/-- Claim C1, witness: with two sessions of which only the first has a cost
record, the hypotheses of the amended theorem are satisfiable: the join has
one row, and that row does not carry the costless session's id. -/
theorem c1_witness :
    (mergeSessionsCosts [exSession1, exSession2] [exCost1]).length
        = ([exSession1, exSession2].map fun s =>
            ([exCost1].filter fun c => c.session_id == s.session_id).length).sum
      ∧ exSC1.session_id ≠ exSession2.session_id :=
  ⟨(c1_join_drops_costless [exSession1, exSession2] [exCost1]).1,
   (c1_join_drops_costless [exSession1, exSession2] [exCost1]).2 exSession2 (by decide)
     (by decide) exSC1 (by decide)⟩

/-- Claim C5, counterexample: a user with two conversions makes the single
session appear once per conversion in the attribution table; the second left
join of `create_channel_reporting` (against the attribution output, on
`session_id`) then grows one session row into two — so the row count is not
preserved by that join, contradicting the claim that the Conversion join is
the sole source of expansion. -/
theorem c5_counterexample :
    exAttr2 = [⟨1, 1, none⟩, ⟨2, 1, none⟩]
      ∧ (crStep1 [exSession1] [exCost1]).length = 1
      ∧ (crStep2 (crStep1 [exSession1] [exCost1]) exAttr2).length = 2 := by
  decide

/-- Claim C5, amended: each of the three left joins of
`create_channel_reporting` emits, per left row, one row per matching right
row (or one row when there is no match), so a join preserves the left row
count exactly when every left row has at most one right match; the
AttributedTouchpoint join can therefore also multiply rows — a session
attributed to several conversions of one user has several attribution rows
with the same `session_id` — in addition to the Conversion join. -/
theorem c5_join_row_counts (sessions : List SessionRow) (costs : List CostRow)
    (attribution : List AttributionRow) (convs : List ConversionRow) :
    (crStep1 sessions costs).length
        = (sessions.map fun s =>
            max (costs.filter fun c => c.session_id == s.session_id).length 1).sum
      ∧ (crStep2 (crStep1 sessions costs) attribution).length
        = ((crStep1 sessions costs).map fun r =>
            max (attribution.filter fun a => a.session_id == r.session_id).length 1).sum
      ∧ (crStep3 (crStep2 (crStep1 sessions costs) attribution) convs).length
        = ((crStep2 (crStep1 sessions costs) attribution).map fun r =>
            max (convs.filter fun cv => cv.user_id == r.user_id).length 1).sum :=
  ⟨leftJoin_length sessions costs _ _,
   leftJoin_length (crStep1 sessions costs) attribution _ _,
   leftJoin_length (crStep2 (crStep1 sessions costs) attribution) convs _ _⟩

/-- Claim C8: on empty input the Journey Builder emits no rows and
`save_customer_journeys_to_csv` writes an artifact whose header is empty —
not the full field set of a touchpoint record — and `pd.read_csv` fails on
that header-less file (EmptyDataError), so the Attribution Engine cannot
reload it; a header-carrying empty artifact, which the claim describes,
would have reloaded fine. -/
theorem c8_empty_input_crash :
    build_customer_journeys [] [] [] = []
      ∧ (save_customer_journeys_to_csv []).header = []
      ∧ (save_customer_journeys_to_csv []).header ≠ journeyFieldList
      ∧ readCsvArtifact (save_customer_journeys_to_csv []) = none
      ∧ readCsvArtifact ⟨journeyFieldList, []⟩ = some ⟨journeyFieldList, []⟩
      ∧ (save_customer_journeys_to_csv [exTouchpoint]).header = journeyFieldList := by
  decide

/-- Claim C9: `compute_metrics_and_export_csv` updates the channel-reporting
table itself — every original column of every row is unchanged and only
`CPO = cost / ihc` and `ROAS = ihc_revenue / cost` are added — and the
function's Python return value is `None`, so the caller's binding of its
result is `None`. -/
theorem c9_in_place_metrics (rows : List ChannelReportingRow) :
    (compute_metrics_and_export_csv rows).2 = none
      ∧ (compute_metrics_and_export_csv rows).1.map stripMetrics = rows
      ∧ (compute_metrics_and_export_csv rows).1.map FinalRow.CPO
          = (rows.map fun r => fdiv r.cost r.ihc)
      ∧ (compute_metrics_and_export_csv rows).1.map FinalRow.ROAS
          = (rows.map fun r => fdiv r.ihc_revenue r.cost) := by
  refine ⟨rfl, ?_, ?_, ?_⟩
  · rw [compute_metrics_and_export_csv]
    simp only [List.map_map]
    rw [show stripMetrics ∘ metricRow = id from funext fun r => rfl, List.map_id]
  · rw [compute_metrics_and_export_csv]
    simp only [List.map_map]
    exact List.map_congr_left fun r _ => rfl
  · rw [compute_metrics_and_export_csv]
    simp only [List.map_map]
    exact List.map_congr_left fun r _ => rfl

/-- Claim C2, counterexample: one session with cost 5 whose channel has no
weight row yields a channel-reporting group with `ihc = 0`; the metrics stage
then computes `CPO = 5 / 0 = +inf`, so the final output does contain a
non-finite value — no zero is substituted. -/
theorem c2_counterexample :
    (compute_metrics_and_export_csv
        (create_channel_reporting [exSession1] [exCost1]
          (create_attribution_customer_journey
            (build_customer_journeys [exConv1] [exSession1] [exCost1]) [])
          [exConv1])).1
      = [⟨"A", "d", 5, 0, 0, Flt.posInf, Flt.fin 0⟩]
      ∧ Flt.isFinite Flt.posInf = false := by
  have h1 : create_attribution_customer_journey
      (build_customer_journeys [exConv1] [exSession1] [exCost1]) [] = [⟨1, 1, none⟩] := by
    decide
  rw [h1]
  have h2 : create_channel_reporting [exSession1] [exCost1] [⟨1, 1, none⟩] [exConv1]
      = [⟨"A", "d", 5, 0, 0⟩] := by
    norm_num [create_channel_reporting, crMerged, crStep1, crStep2, crStep3, leftJoin,
      crKeys, crKeyMatch, sortLe, insertLe, strPairLe, revenueAggAligned, osum, omul,
      exSession1, exCost1, exConv1, List.dedup]
  rw [h2]
  exact ⟨by norm_num [compute_metrics_and_export_csv, metricRow, fdiv], rfl⟩

/-- Claim C2, amended: the Metrics Computer computes `CPO = cost / ihc` and
`ROAS = ihc_revenue / cost` by plain float division with no zero
substitution, so a zero `ihc` makes `CPO` non-finite (an infinity or NaN)
and a zero `cost` makes `ROAS` non-finite. -/
theorem c2_division_semantics (rows : List ChannelReportingRow) :
    ((compute_metrics_and_export_csv rows).1.map FinalRow.CPO
        = (rows.map fun r => fdiv r.cost r.ihc))
      ∧ ((compute_metrics_and_export_csv rows).1.map FinalRow.ROAS
        = (rows.map fun r => fdiv r.ihc_revenue r.cost))
      ∧ (∀ r ∈ rows, r.ihc = 0 → Flt.isFinite (fdiv r.cost r.ihc) = false)
      ∧ ∀ r ∈ rows, r.cost = 0 → Flt.isFinite (fdiv r.ihc_revenue r.cost) = false := by
  refine ⟨?_, ?_, ?_, ?_⟩
  · rw [compute_metrics_and_export_csv]
    simp only [List.map_map]
    exact List.map_congr_left fun r _ => rfl
  · rw [compute_metrics_and_export_csv]
    simp only [List.map_map]
    exact List.map_congr_left fun r _ => rfl
  · intro r _ h0
    rw [h0]
    simp only [fdiv, if_pos rfl]
    split_ifs <;> rfl
  · intro r _ h0
    rw [h0]
    simp only [fdiv, if_pos rfl]
    split_ifs <;> rfl

/-- Claim C2, witness: the hypotheses of the amended theorem are satisfiable
on concrete rows: a row with `ihc = 0` gets a non-finite `CPO`, and a row
with `cost = 0` gets a non-finite `ROAS`. -/
theorem c2_witness :
    Flt.isFinite (fdiv (5 : ℚ) 0) = false ∧ Flt.isFinite (fdiv (7 : ℚ) 0) = false :=
  ⟨(c2_division_semantics [⟨"A", "d", 5, 0, 0⟩]).2.2.1 ⟨"A", "d", 5, 0, 0⟩
      (List.mem_singleton_self _) rfl,
   (c2_division_semantics [⟨"B", "d", 0, 0, 7⟩]).2.2.2 ⟨"B", "d", 0, 0, 7⟩
      (List.mem_singleton_self _) rfl⟩

/-- Claim C3: each emitted channel-reporting row's `ihc_revenue` equals the
sum, over exactly the rows of its own `(channel_name, event_date)` group, of
each row's own `revenue` multiplied by that same row's own `ihc` — the
index-aligned lambda contributes nothing from rows of other groups and never
pairs one row's revenue with another row's ihc. -/
theorem c3_group_revenue_pairing (sessions : List SessionRow) (costs : List CostRow)
    (attribution : List AttributionRow) (convs : List ConversionRow)
    (out : ChannelReportingRow)
    (hout : out ∈ create_channel_reporting sessions costs attribution convs) :
    out.ihc_revenue
      = osum (((crMerged sessions costs attribution convs).filter
          (crKeyMatch (out.channel_name, out.date))).map fun r => omul r.revenue r.ihc) := by
  simp only [create_channel_reporting, List.mem_map] at hout
  obtain ⟨k, hk, rfl⟩ := hout
  simpa [revenueAggAligned] using
    osum_ite_filter (crKeyMatch k) (fun r => omul r.revenue r.ihc)
      (crMerged sessions costs attribution convs)

/-- Claim C3, witness: the membership hypothesis is satisfiable on a concrete
run, and the emitted `ihc_revenue` is the group's own revenue-times-ihc sum. -/
theorem c3_witness :
    (⟨"A", "d", 5, 0, 0⟩ : ChannelReportingRow).ihc_revenue
      = osum (((crMerged [exSession1] [exCost1] [⟨1, 1, none⟩] [exConv1]).filter
          (crKeyMatch ("A", "d"))).map fun r => omul r.revenue r.ihc) :=
  c3_group_revenue_pairing [exSession1] [exCost1] [⟨1, 1, none⟩] [exConv1]
    ⟨"A", "d", 5, 0, 0⟩
    (by
      rw [show create_channel_reporting [exSession1] [exCost1] [⟨1, 1, none⟩] [exConv1]
          = [⟨"A", "d", 5, 0, 0⟩] from by
        norm_num [create_channel_reporting, crMerged, crStep1, crStep2, crStep3, leftJoin,
          crKeys, crKeyMatch, sortLe, insertLe, strPairLe, revenueAggAligned, osum, omul,
          exSession1, exCost1, exConv1, List.dedup]]
      exact List.mem_singleton_self _)

/-- Claim C4, counterexample: with one session on channel "A", which has no
weight row, the attribution output keeps the row with a null `ihc`, but the
final channel-reporting output carries the number 0 for that group's `ihc`
and `ihc_revenue` — the groupby sums skip nulls, so the null is converted to
a number rather than staying visible in the final output. -/
theorem c4_counterexample :
    create_attribution_customer_journey
        (build_customer_journeys [exConv1] [exSession1] [exCost1]) [] = [⟨1, 1, none⟩]
      ∧ create_channel_reporting [exSession1] [exCost1] [⟨1, 1, none⟩] [exConv1]
          = [⟨"A", "d", 5, 0, 0⟩] :=
  ⟨by decide, by
    norm_num [create_channel_reporting, crMerged, crStep1, crStep2, crStep3, leftJoin,
      crKeys, crKeyMatch, sortLe, insertLe, strPairLe, revenueAggAligned, osum, omul,
      exSession1, exCost1, exConv1, List.dedup]⟩

/-- Claim C4, amended: a touchpoint whose `channel_label` matches no weight
row is kept by the attribution left join with a null `ihc`; but that null
does not survive aggregation: the groupby sums skip null entries, so a group
whose rows all carry null `ihc` reports the number 0 in the final output. -/
theorem c4_null_kept_but_summed :
    (∀ (tps : List TouchpointRow) (ws : List ChannelWeightRow), ∀ t ∈ tps,
        (ws.filter fun w => w.channel == t.channel_label) = [] →
        (⟨t.conversion_id, t.session_id, none⟩ : AttributionRow)
          ∈ create_attribution_customer_journey tps ws)
      ∧ ∀ (m : List CR3) (k : String × String),
          (∀ r ∈ m.filter (crKeyMatch k), r.ihc = none) →
          osum ((m.filter (crKeyMatch k)).map CR3.ihc) = 0 := by
  constructor
  · intro tps ws t ht hnil
    simp only [create_attribution_customer_journey, leftJoin, List.mem_flatMap]
    refine ⟨t, ht, ?_⟩
    rw [hnil]
    simp
  · intro m k h
    refine osum_all_none _ ?_
    intro a ha
    obtain ⟨r, hr, rfl⟩ := List.mem_map.1 ha
    exact h r hr

/-- Claim C4, witness: both hypotheses of the amended theorem are satisfiable
on a concrete run: the unmatched touchpoint's null-ihc row is in the
attribution output, and its group's ihc sum in the final report is 0. -/
theorem c4_witness :
    (⟨1, 1, none⟩ : AttributionRow)
        ∈ create_attribution_customer_journey [exTouchpoint] []
      ∧ osum (((crMerged [exSession1] [exCost1] [⟨1, 1, none⟩] [exConv1]).filter
          (crKeyMatch ("A", "d"))).map CR3.ihc) = 0 :=
  ⟨c4_null_kept_but_summed.1 [exTouchpoint] [] exTouchpoint (List.mem_singleton_self _) rfl,
   c4_null_kept_but_summed.2 (crMerged [exSession1] [exCost1] [⟨1, 1, none⟩] [exConv1])
     ("A", "d") (by decide)⟩

/-- Claim C6: for a `(conv_id, user_id)` partition whose time-sorted rows are
`f :: rest`, the Journey Builder takes the conversion time from the first
sorted row `f` and emits exactly the sorted rows whose `event_time` is at or
after `f.conv_time`; a row with `event_time` strictly before it is never
emitted. -/
theorem c6_eligibility_window (m : List JRow) (k : Nat × Nat) (f : JRow) (rest : List JRow)
    (hk : k ∈ journeyKeys m) (hg : sortLe timeLe (journeyGroup m k) = f :: rest) :
    journeyEmit m k
        = ((f :: rest).filter fun r => decide (f.conv_time ≤ r.event_time)).map projectRow
      ∧ ∀ r ∈ f :: rest, r.event_time < f.conv_time → projectRow r ∉ journeyEmit m k := by
  have h1 : journeyEmit m k
      = ((f :: rest).filter fun r => decide (f.conv_time ≤ r.event_time)).map projectRow := by
    unfold journeyEmit
    rw [hg]
  refine ⟨h1, ?_⟩
  intro r hr hlt hmem
  rw [h1] at hmem
  obtain ⟨r', hr', heq⟩ := List.mem_map.1 hmem
  have h2 := (List.mem_filter.1 hr').2
  have h3 : f.conv_time ≤ r'.event_time := by simpa using h2
  have h4 : r'.event_time = r.event_time := congrArg TouchpointRow.timestamp heq
  omega

/-- Claim C6, witness: on a concrete run with a pre-conversion and a
post-conversion session, the hypotheses are satisfiable: only the
post-conversion row is emitted, and the pre-conversion row (`event_time`
-5, before `conv_time` 0) is excluded. -/
theorem c6_witness :
    journeyEmit (journeyMerged [exConv1] [exSession1, exSession2] [exCost1, exCost2]) (1, 1)
        = (([exJ2, exJ1]).filter fun r => decide (exJ2.conv_time ≤ r.event_time)).map projectRow
      ∧ projectRow exJ2
          ∉ journeyEmit (journeyMerged [exConv1] [exSession1, exSession2] [exCost1, exCost2])
            (1, 1) :=
  ⟨(c6_eligibility_window (journeyMerged [exConv1] [exSession1, exSession2] [exCost1, exCost2])
      (1, 1) exJ2 [exJ1] (by decide) (by decide)).1,
   (c6_eligibility_window (journeyMerged [exConv1] [exSession1, exSession2] [exCost1, exCost2])
      (1, 1) exJ2 [exJ1] (by decide) (by decide)).2 exJ2 (List.mem_cons_self _ _) (by decide)⟩

/-- Claim C7: a touchpoint whose channel label matches exactly one weight row
is credited `ihc = (I + H + C) / 3` with
`I = impression_interaction * init weight`,
`H = holder_engagement * holder weight`,
`C = closer_engagement * closer weight` — the divisor is the constant 3,
with no renormalization by how many role flags are set. -/
theorem c7_matched_ihc (tps : List TouchpointRow) (ws : List ChannelWeightRow)
    (t : TouchpointRow) (w : ChannelWeightRow) (ht : t ∈ tps)
    (hw : (ws.filter fun x => x.channel == t.channel_label) = [w]) :
    (⟨t.conversion_id, t.session_id,
        some ((t.impression_interaction * w.init_weight
          + t.holder_engagement * w.holder_weight
          + t.closer_engagement * w.closer_weight) / 3)⟩ : AttributionRow)
      ∈ create_attribution_customer_journey tps ws := by
  simp only [create_attribution_customer_journey, leftJoin, List.mem_flatMap]
  refine ⟨t, ht, ?_⟩
  rw [hw]
  simp [ihcOf]

/-- Claim C7, witness: the single-role touchpoint of the round-trip scenario
(closer flag only, weights (1/2, 3/10, 1/5)) is credited
`(0 * (1/2) + 0 * (3/10) + 1 * (1/5)) / 3` — divided by three although only
one role is active. -/
theorem c7_witness :
    (⟨1, 1, some ((0 * (1/2) + 0 * (3/10) + 1 * (1/5)) / 3)⟩ : AttributionRow)
      ∈ create_attribution_customer_journey [exTouchpoint] [exWeight] :=
  c7_matched_ihc [exTouchpoint] [exWeight] exTouchpoint exWeight
    (List.mem_singleton_self _) rfl

/-- Claim C10: the Journey Builder's output is the concatenation of its
per-partition emissions, taken over the `(conv_id, user_id)` keys in
ascending lexicographic order, and within every partition the emitted
timestamps are ascending; the whole output is a function of the input
tables, hence deterministic. -/
theorem c10_deterministic_order (df_conversions : List ConversionRow)
    (df_session_sources : List SessionRow) (df_session_costs : List CostRow) :
    build_customer_journeys df_conversions df_session_sources df_session_costs
        = (journeyKeys (journeyMerged df_conversions df_session_sources
            df_session_costs)).flatMap
            (journeyEmit (journeyMerged df_conversions df_session_sources df_session_costs))
      ∧ (journeyKeys (journeyMerged df_conversions df_session_sources
            df_session_costs)).Pairwise (fun a b => keyLe a b = true)
      ∧ ∀ k, ((journeyEmit (journeyMerged df_conversions df_session_sources df_session_costs)
            k).map TouchpointRow.timestamp).Pairwise (· ≤ ·) := by
  refine ⟨rfl, pairwise_sortLe keyLe keyLe_total keyLe_trans _, ?_⟩
  intro k
  unfold journeyEmit
  cases hg : sortLe timeLe
      (journeyGroup (journeyMerged df_conversions df_session_sources df_session_costs) k) with
  | nil => simp
  | cons f rest =>
    have hp : (f :: rest).Pairwise fun a b => timeLe a b = true :=
      hg ▸ pairwise_sortLe timeLe timeLe_total timeLe_trans _
    simp only [List.map_map]
    exact (hp.filter _).map _ fun a b h => by simpa [timeLe] using h

end AMS
